import Mathlib

/-!
Shallow embedding of `src/xcom/base.h` (XWine1/XDLCompiler): the interface
identity registry (`guid_of`, `abi_t`), the unwrap protocol
(`xcom::UnwrapInterface`), the register-return adapter (`reg_return_t`,
`to_reg_return`) and the unimplemented-method diagnostics
(`xcom::StubHandler`, `xcom::TodoHandler`).

Pointers are modelled as `Option Nat` (`none` = null); `HRESULT` as `Int`
(the signed 32-bit value of the code); a C++ type, for the register-return
adapter, as a record of the traits the source inspects (`is_class_v`,
`is_union_v`, `sizeof`) plus an identity tag so that distinct types with
equal traits stay distinct, as `std::is_same_v` requires.
-/

/-- A 128-bit COM identifier: one 32-bit group, two 16-bit groups and an
8-byte group, as in `GUID`. -/
structure GUID where
  Data1 : Nat
  Data2 : Nat
  Data3 : Nat
  Data4 : List Nat
deriving DecidableEq, Repr

/-- `GUID_UnwrapInterface`, the reserved sentinel identifier
{7E93844E-159A-4D07-9910-87E9D65ECE00} from the source. -/
def GUID_UnwrapInterface : GUID :=
  ⟨0x7E93844E, 0x159A, 0x4D07, [0x99, 0x10, 0x87, 0xE9, 0xD6, 0x5E, 0xCE, 0x00]⟩

/-- `abi_t`: four unsigned 32-bit fields, each with default member
initializer `= 0`, so a default-constructed `abi_t{}` is all-zero. -/
structure abi_t where
  Major : Nat := 0
  Minor : Nat := 0
  Build : Nat := 0
  Revision : Nat := 0
deriving DecidableEq, Repr

/-- A C++ interface type as the registry sees it: it carries the constant
`xcom::impl::guid_v<T>` (`__uuidof(T)`, or its explicit specialization). -/
structure IfaceT where
  guid : GUID
deriving DecidableEq

/-- Primary lookup `xcom::guid_of<T>()`: returns `impl::guid_v<T>`. -/
def guid_of (t : IfaceT) : GUID := t.guid

/-- Family lookup `xcom::guid_of<T>()` for a template `T` taking an
`abi_t`: `return guid_of<T<abi_t{}>>();`. -/
def guid_of_family (T : abi_t → IfaceT) : GUID := guid_of (T {})

/-- `S_OK`. -/
def S_OK : Int := 0

/-- `S_FALSE`. -/
def S_FALSE : Int := 1

/-- `E_POINTER` (`0x80004003` read as a signed 32-bit value). -/
def E_POINTER : Int := 0x80004003 - 0x100000000

/-- `E_NOINTERFACE` (`0x80004002` read as a signed 32-bit value). -/
def E_NOINTERFACE : Int := 0x80004002 - 0x100000000

/-- `SUCCEEDED(hr)`: the `HRESULT` is non-negative. -/
def SUCCEEDED (hr : Int) : Bool := decide (0 ≤ hr)

/-- An opaque COM object: its `QueryInterface` behaviour. For each queried
identifier it yields the returned `HRESULT` and the pointer value it stores
through `ppvObject`. -/
structure ComObj where
  qi : GUID → Int × Option Nat

/-- Observable outcome of one `xcom::UnwrapInterface` call: the returned
`HRESULT`, the final contents of `*ppvObject` (`none` = the location was
never written, `some v` = last value written is `v`), and whether
`QueryInterface` was invoked. -/
structure UnwrapResult where
  hr : Int
  out : Option (Option Nat)
  qiInvoked : Bool
deriving DecidableEq

/-- `xcom::UnwrapInterface(pUnknown, ppvObject)`. `ppValid` is whether
`ppvObject` is a non-null writable location; the code checks
`ppvObject == nullptr` first (`RETURN_HR(E_POINTER)`), then
`pUnknown == nullptr` (`*ppvObject = nullptr; return S_FALSE;`), then calls
`pUnknown->QueryInterface(GUID_UnwrapInterface, ppvObject)`, returning its
`HRESULT` on success and nulling `*ppvObject` before returning it on
failure. -/
def UnwrapInterface (pUnknown : Option ComObj) (ppValid : Bool) : UnwrapResult :=
  if ppValid = false then
    ⟨E_POINTER, none, false⟩
  else
    match pUnknown with
    | none => ⟨S_FALSE, some none, false⟩
    | some obj =>
      let q := obj.qi GUID_UnwrapInterface
      if SUCCEEDED q.1 then ⟨q.1, some q.2, true⟩
      else ⟨q.1, some none, true⟩

/-- A `ComObj` whose `QueryInterface` rejects every identifier with
`E_NOINTERFACE`, leaving the output null. -/
def denyAllObj : ComObj := ⟨fun _ => (E_NOINTERFACE, none)⟩

/-- A `ComObj` whose `QueryInterface` succeeds with status `S_FALSE` and
stores a non-null pointer. -/
def sfalseObj : ComObj := ⟨fun _ => (S_FALSE, some 1)⟩

/-- Claim C6: `UnwrapInterface(nullptr, &out)` with a valid output location
writes null into `out` and returns `S_FALSE`, which is distinct from the
ordinary success `S_OK`, without invoking `QueryInterface`. -/
theorem unwrap_null_ref_vacuous :
    UnwrapInterface none true = ⟨S_FALSE, some none, false⟩ ∧ S_FALSE ≠ S_OK :=
  ⟨rfl, by decide⟩

/-- Claim C7: for every input reference, `UnwrapInterface` with a null
output location returns `E_POINTER`, never invokes `QueryInterface` and
writes no location. -/
theorem unwrap_null_out_invalid (pUnknown : Option ComObj) :
    UnwrapInterface pUnknown false = ⟨E_POINTER, none, false⟩ :=
  rfl

/-- Claim C1: with a valid output location, `UnwrapInterface` always writes
`*ppvObject`, and the value left there is either null or exactly the
pointer that the `QueryInterface` negotiation stored on a succeeding call;
whenever the returned `HRESULT` is a failure, the value left is null. -/
theorem unwrap_out_safety (pUnknown : Option ComObj) :
    ∃ v, (UnwrapInterface pUnknown true).out = some v ∧
      (v = none ∨ ∃ obj, pUnknown = some obj ∧
        SUCCEEDED (obj.qi GUID_UnwrapInterface).1 = true ∧
        v = (obj.qi GUID_UnwrapInterface).2) ∧
      (SUCCEEDED (UnwrapInterface pUnknown true).hr = true ∨ v = none) := by
  match pUnknown with
  | none =>
    exact ⟨none, rfl, Or.inl rfl, Or.inr rfl⟩
  | some obj =>
    by_cases h : SUCCEEDED (obj.qi GUID_UnwrapInterface).1 = true
    · refine ⟨(obj.qi GUID_UnwrapInterface).2, ?_, ?_, ?_⟩
      · simp [UnwrapInterface, h]
      · exact Or.inr ⟨obj, rfl, h, rfl⟩
      · left
        simp [UnwrapInterface, h]
    · refine ⟨none, ?_, Or.inl rfl, Or.inr rfl⟩
      simp [UnwrapInterface, h]

/-- Claim C5: when the negotiation call fails, `UnwrapInterface` returns
the negotiation's failure `HRESULT` unchanged and leaves the output
null. -/
theorem unwrap_negotiation_failure_verbatim (obj : ComObj)
    (h : SUCCEEDED (obj.qi GUID_UnwrapInterface).1 = false) :
    (UnwrapInterface (some obj) true).hr = (obj.qi GUID_UnwrapInterface).1 ∧
    (UnwrapInterface (some obj) true).out = some none := by
  constructor <;> simp [UnwrapInterface, h]

/-- Witness for C5 at the deny-all object: the failure code
`E_NOINTERFACE` comes back unchanged and the output is null. -/
theorem unwrap_negotiation_failure_verbatim_witness :
    (UnwrapInterface (some denyAllObj) true).hr = E_NOINTERFACE ∧
    (UnwrapInterface (some denyAllObj) true).out = some none :=
  unwrap_negotiation_failure_verbatim denyAllObj (by decide)

/-- Claim C10: on a successful negotiation, `UnwrapInterface` returns the
negotiation's success status verbatim rather than a fixed `S_OK`; hence an
object whose `QueryInterface` succeeds with `S_FALSE` and a real pointer is
indistinguishable by return value from the absent-reference case. -/
theorem unwrap_success_status_verbatim (obj : ComObj)
    (h : SUCCEEDED (obj.qi GUID_UnwrapInterface).1 = true) :
    (UnwrapInterface (some obj) true).hr = (obj.qi GUID_UnwrapInterface).1 ∧
    ∃ o : ComObj, SUCCEEDED (o.qi GUID_UnwrapInterface).1 = true ∧
      (o.qi GUID_UnwrapInterface).2 ≠ none ∧
      (UnwrapInterface (some o) true).hr = (UnwrapInterface none true).hr := by
  refine ⟨by simp [UnwrapInterface, h], sfalseObj, by decide, by decide, by decide⟩

/-- Witness for C10 at the object that succeeds with status `S_FALSE`:
the returned status equals `S_FALSE`, not `S_OK`. -/
theorem unwrap_success_status_verbatim_witness :
    (UnwrapInterface (some sfalseObj) true).hr = S_FALSE :=
  (unwrap_success_status_verbatim sfalseObj (by decide)).1

/-- Claim C2: the family lookup for a version-parameterized template `T`
equals the primary lookup at `T` instantiated at the default-constructed
all-zero `abi_t` — one identifier per template family. -/
theorem guid_of_family_collapses (T : abi_t → IfaceT) :
    guid_of_family T = guid_of (T ⟨0, 0, 0, 0⟩) :=
  rfl

/-- `sizeof(std::uintptr_t)`: one native pointer-width register, 8 bytes on
the 64-bit target. -/
def ptrSize : Nat := 8

/-- A C++ type as the register-return adapter inspects it: `is_class_v`,
`is_union_v` and `sizeof`, plus an identity tag `id` distinguishing
distinct types of equal traits (tag 0 is reserved for `std::uintptr_t`),
so that `std::is_same_v` is equality of `CType`s. -/
structure CType where
  id : Nat
  isClass : Bool
  isUnion : Bool
  size : Nat
deriving DecidableEq, Repr

/-- `std::uintptr_t`: a scalar of register width, identity tag 0. -/
def uintptr : CType := ⟨0, false, false, ptrSize⟩

/-- `reg_return_t<T>`: `std::uintptr_t` when `T` is a class or union of
size at most `sizeof(std::uintptr_t)`, else `T` itself. -/
def reg_return_t (T : CType) : CType :=
  if (T.isClass || T.isUnion) && decide (T.size ≤ ptrSize) then uintptr else T

/-- `to_reg_return(value)`. A value of `T` is its `sizeof(T)` storage
bytes. When `T` and `reg_return_t<T>` are the same type the value is
returned unchanged; otherwise a zero-initialized register-width object is
overwritten on its first `sizeof(T)` bytes by `memcpy`. -/
def to_reg_return (T : CType) (v : List Nat) : List Nat :=
  if T = reg_return_t T then v
  else v.take T.size ++ List.replicate (ptrSize - T.size) 0

/-- A class of size 4 with identity tag 1, e.g. a small POD struct. -/
def smallClass : CType := ⟨1, true, false, 4⟩

/-- A class of size 16 with identity tag 2, larger than one register. -/
def bigClass : CType := ⟨2, true, false, 16⟩

/-- Claim C3: `reg_return_t<T>` is the register-width unsigned integer
exactly when `T` is a class or union of size at most one register, and is
`T` itself otherwise, in which case `to_reg_return` is the identity; in
particular `to_reg_return` at `std::uintptr_t` itself is the identity. -/
theorem reg_return_adapter_spec (T : CType) (v : List Nat) :
    (((T.isClass = true ∨ T.isUnion = true) ∧ T.size ≤ ptrSize) →
      reg_return_t T = uintptr) ∧
    (¬ ((T.isClass = true ∨ T.isUnion = true) ∧ T.size ≤ ptrSize) →
      reg_return_t T = T ∧ to_reg_return T v = v) ∧
    to_reg_return uintptr v = v := by
  refine ⟨?_, ?_, by simp [to_reg_return, reg_return_t, uintptr, ptrSize]⟩
  · rintro ⟨h1, h2⟩
    simp [reg_return_t, h2]
    rcases h1 with h | h <;> simp [h]
  · intro h
    have hb : ¬ (((T.isClass || T.isUnion) && decide (T.size ≤ ptrSize)) = true) := by
      intro hc
      rw [Bool.and_eq_true, Bool.or_eq_true_iff, decide_eq_true_eq] at hc
      exact h hc
    have ht : reg_return_t T = T := by
      rw [reg_return_t, if_neg hb]
    exact ⟨ht, by simp [to_reg_return, ht]⟩

/-- Witness for C3: a 4-byte class adapts to `std::uintptr_t`; a 16-byte
class keeps its type and its value; `std::uintptr_t` round-trips. -/
theorem reg_return_adapter_spec_witness :
    reg_return_t smallClass = uintptr ∧
    (reg_return_t bigClass = bigClass ∧
      to_reg_return bigClass [9, 9, 9, 9, 9, 9, 9, 9, 9, 9, 9, 9, 9, 9, 9, 9] =
        [9, 9, 9, 9, 9, 9, 9, 9, 9, 9, 9, 9, 9, 9, 9, 9]) ∧
    to_reg_return uintptr [1, 2, 3, 4, 5, 6, 7, 8] = [1, 2, 3, 4, 5, 6, 7, 8] :=
  ⟨(reg_return_adapter_spec smallClass []).1 ⟨Or.inl rfl, by decide⟩,
   (reg_return_adapter_spec bigClass [9, 9, 9, 9, 9, 9, 9, 9, 9, 9, 9, 9, 9, 9, 9, 9]).2.1
     (by decide),
   (reg_return_adapter_spec uintptr [1, 2, 3, 4, 5, 6, 7, 8]).2.2⟩

/-- Claim C4: for a class or union `T` of size at most one register and a
value given by its `sizeof(T)` storage bytes, `to_reg_return` yields a
register-width byte string whose low `sizeof(T)` bytes are the value's
bytes and whose high bytes are zero. -/
theorem to_reg_return_bytes (T : CType) (v : List Nat)
    (h1 : (T.isClass || T.isUnion) = true) (h2 : T.size ≤ ptrSize)
    (hv : v.length = T.size) :
    to_reg_return T v = v ++ List.replicate (ptrSize - T.size) 0 ∧
    (to_reg_return T v).length = ptrSize := by
  have hru : reg_return_t T = uintptr := by simp [reg_return_t, h1, h2]
  have hne : T ≠ reg_return_t T := by
    rw [hru]
    intro he
    have : T.isClass = false ∧ T.isUnion = false := by
      rw [he]; exact ⟨rfl, rfl⟩
    rcases Bool.or_eq_true_iff.mp h1 with h | h
    · rw [this.1] at h; exact Bool.false_ne_true h
    · rw [this.2] at h; exact Bool.false_ne_true h
  have htake : v.take T.size = v := by
    rw [← hv]; exact List.take_length v
  constructor
  · rw [to_reg_return, if_neg hne, htake]
  · rw [to_reg_return, if_neg hne]
    simp [htake, hv, Nat.add_sub_cancel' h2]

/-- Witness for C4 at a 4-byte class value `[1, 2, 3, 4]`: the adapted
register holds those bytes low and zeros high. -/
theorem to_reg_return_bytes_witness :
    to_reg_return smallClass [1, 2, 3, 4] = [1, 2, 3, 4, 0, 0, 0, 0] ∧
    (to_reg_return smallClass [1, 2, 3, 4]).length = ptrSize :=
  to_reg_return_bytes smallClass [1, 2, 3, 4] (by decide) (by decide) (by decide)

/-- An object as the diagnostics see it: the name RTTI resolves for its
dynamic type (`__RTtypeid(object)->name()`). -/
structure TypedObj where
  typeName : String
deriving DecidableEq

/-- One observable platform effect of `xcom::StubHandler`. -/
inductive Effect where
  | messageBox (text caption : String)
  | debugBreak
  | exitProcess (code : Nat)
deriving DecidableEq, Repr

/-- `xcom::StubHandler(name, object)`. `rtti` mirrors `_CPPRTTI` and `dbg`
mirrors `_DEBUG`. The resolved caption is the RTTI type name when available
and the object is non-null, else the placeholder "STUB"; the effect trace
is the modal `MessageBoxA`, the conditional `DebugBreak`, then
`ExitProcess(0)`. The second component is the control outcome:
`Except.error code` because `ExitProcess` terminates the process, so the
call never produces a normal return (`Except.ok`). -/
def StubHandler (rtti dbg : Bool) (name : String) (object : Option TypedObj) :
    List Effect × Except Nat Unit :=
  let type : String :=
    if rtti then
      match object with
      | some o => o.typeName
      | none => "STUB"
    else "STUB"
  ([Effect.messageBox name type] ++ (if dbg then [Effect.debugBreak] else []) ++
    [Effect.exitProcess 0],
   Except.error 0)

/-- `xcom::TodoHandler(name, object)` as the list of strings passed, in
order, to the `OutputDebugStringA` trace sink. `rtti` mirrors `_CPPRTTI`:
without it, or for a null object, no type name is resolved and the
parenthetical is skipped. -/
def TodoHandler (rtti : Bool) (name : String) (object : Option TypedObj) :
    List String :=
  let type : Option String :=
    if rtti then
      match object with
      | some o => some o.typeName
      | none => none
    else none
  ["TODO: ", name] ++
    (match type with
     | some t => ["(from ", t, ")"]
     | none => []) ++
    ["\n"]

/-- Claim C8: the trace emitted by `TodoHandler` concatenates to exactly
"TODO: n(from t)\n" when a type name `t` is resolved, and to exactly
"TODO: n\n" — parenthetical omitted — when none is (null object, or no
RTTI); the handler returns normally, being a total function on its
inputs. -/
theorem todo_handler_trace (rtti : Bool) (n : String) (o : TypedObj) :
    String.join (TodoHandler true n (some o)) =
      "TODO: " ++ n ++ "(from " ++ o.typeName ++ ")" ++ "\n" ∧
    String.join (TodoHandler rtti n none) = "TODO: " ++ n ++ "\n" ∧
    String.join (TodoHandler false n (some o)) = "TODO: " ++ n ++ "\n" := by
  refine ⟨?_, ?_, ?_⟩ <;>
    · apply String.ext
      simp [TodoHandler, String.join]

/-- Claim C9: for every build configuration, method name and object
pointer, `StubHandler` ends in process termination: its control outcome is
`Except.error 0` (never a normal return), the final effect of its trace is
`ExitProcess(0)`, and the modal diagnostic precedes it as the first
effect. -/
theorem stub_handler_never_returns (rtti dbg : Bool) (n : String)
    (o : Option TypedObj) :
    (StubHandler rtti dbg n o).2 = Except.error 0 ∧
    (StubHandler rtti dbg n o).1.getLast? = some (Effect.exitProcess 0) ∧
    ∃ t, (StubHandler rtti dbg n o).1.head? = some (Effect.messageBox n t) := by
  refine ⟨rfl, ?_, ?_⟩
  · cases dbg <;> simp [StubHandler]
  · cases rtti <;> cases o <;> simp [StubHandler]
